import Mathlib

/-!
Verification of the lsf document-compiler pipeline.

This file gives a shallow embedding of the five core Python modules of the
repository (`.lsf/scripts/python/`): the Spec→Requirements transformer
(`spec_to_requirements.py`), the Requirements→RedPhase transformer
(`requirements_to_red.py`), the RedPhase→GreenPhase transformer
(`red_to_green.py`), the task parser (`task_parser.py`) and the
constitutional/policy validator (`constitutional_validator.py`), and proves
or refutes the frozen claims about them.

Strings are modelled as Lean `String`s (lists of unicode code points, which
matches CPython's `str`).  The Python string methods and the `re` patterns
the scripts use are modelled operationally by the `py*` helpers and the
scanners below; each definition's doc comment names the source construct it
embeds.  Scanners use an explicit fuel argument (always instantiated with
the input length, which is an upper bound on the number of scanning steps)
purely to make termination structural; fuel never changes the computed
value.  `Char.toLower`/`Char.toUpper` are ASCII case maps, which agree with
CPython's `str.lower`/`str.upper` on all strings appearing in this
pipeline's documents and tables.
-/

/-- Characters matched by Python's `str.strip()` / the regex class `\s`
(ASCII range: space, tab, newline, carriage return, vertical tab, form feed). -/
def pyIsSpace (c : Char) : Bool :=
  c = ' ' || c = '\t' || c = '\n' || c = '\r' || c = '\x0b' || c = '\x0c'

/-- Python `str.strip()`: drop leading and trailing whitespace. -/
def pyStrip (s : String) : String :=
  ⟨((s.data.dropWhile pyIsSpace).reverse.dropWhile pyIsSpace).reverse⟩

/-- Python `str.lower()` (ASCII case map). -/
def pyLower (s : String) : String := ⟨s.data.map Char.toLower⟩

/-- Core of Python `str.capitalize()`: first character upper-cased, the rest
lower-cased. -/
def capitalizeChars : List Char → List Char
  | [] => []
  | c :: cs => Char.toUpper c :: cs.map Char.toLower

/-- Python `str.capitalize()`. -/
def pyCapitalize (s : String) : String := ⟨capitalizeChars s.data⟩

/-- Substring test on character lists: scans every suffix for `pat` as a
prefix.  Models Python's `pat in s`. -/
def containsL : List Char → List Char → Bool
  | pat, [] => pat.isEmpty
  | pat, c :: cs => pat.isPrefixOf (c :: cs) || containsL pat cs

/-- Python `pat in s` on strings. -/
def pyIn (pat s : String) : Bool := containsL pat.data s.data

/-- Python `pat.lower() in s.lower()`, the case-insensitive substring test the
validator uses throughout. -/
def pyInCI (pat s : String) : Bool := containsL (pyLower pat).data (pyLower s).data

/-- Fuelled scanner for Python `s.count(pat)` with non-empty `pat`:
non-overlapping occurrences, scanning left to right. -/
def countOccurAux : Nat → List Char → List Char → Nat
  | 0, _, _ => 0
  | _ + 1, _, [] => 0
  | fuel + 1, pat, c :: cs =>
    if pat.isPrefixOf (c :: cs) then 1 + countOccurAux fuel pat ((c :: cs).drop pat.length)
    else countOccurAux fuel pat cs

/-- Python `s.count(pat)` (for the empty pattern CPython returns `len(s) + 1`). -/
def pyCount (s pat : String) : Nat :=
  if pat.data.isEmpty then s.data.length + 1
  else countOccurAux s.data.length pat.data s.data

/-- Fuelled scanner for Python `s.replace(pat, rep)` with non-empty `pat`:
replaces non-overlapping occurrences left to right. -/
def pyReplaceAux : Nat → List Char → List Char → List Char → List Char
  | 0, s, _, _ => s
  | _ + 1, [], _, _ => []
  | fuel + 1, c :: cs, pat, rep =>
    if pat.isPrefixOf (c :: cs) then rep ++ pyReplaceAux fuel ((c :: cs).drop pat.length) pat rep
    else c :: pyReplaceAux fuel cs pat rep

/-- Python `s.replace(pat, rep)` (for the empty pattern CPython interleaves
`rep` around every character). -/
def pyReplace (s pat rep : String) : String :=
  if pat.data.isEmpty then ⟨rep.data ++ s.data.flatMap (fun c => c :: rep.data)⟩
  else ⟨pyReplaceAux s.data.length s.data pat.data rep.data⟩

/-- Core of Python `s.split(sep)` for a one-character separator: keeps empty
groups, `[""]` on the empty string. -/
def splitCharAux (sep : Char) : List Char → List (List Char)
  | [] => [[]]
  | c :: cs =>
    let r := splitCharAux sep cs
    if c = sep then [] :: r
    else
      match r with
      | [] => [[c]]
      | g :: gs => (c :: g) :: gs

/-- Python `s.split(sep)` for a one-character separator. -/
def pySplit (s : String) (sep : Char) : List String :=
  (splitCharAux sep s.data).map (fun g => ⟨g⟩)

/-- Python `s.endswith(suffix)`. -/
def pyEndsWith (s suffix : String) : Bool := suffix.data.isSuffixOf s.data

/-- Python `str(n)` for a natural number. -/
def natStr (n : Nat) : String := ⟨Nat.toDigits 10 n⟩

/-- Python `f"{n:03d}"`: decimal, left-padded with zeros to width 3. -/
def pad3 (n : Nat) : String :=
  ⟨List.replicate (3 - (Nat.toDigits 10 n).length) '0' ++ Nat.toDigits 10 n⟩

/-- Model of `re.search(r'\d+', s)`: the leftmost maximal digit run, `none`
when `s` has no digit (where the scripts would then crash on `.group()`). -/
def searchDigits : List Char → Option (List Char)
  | [] => none
  | c :: cs =>
    if c.isDigit then some (c :: cs.takeWhile Char.isDigit)
    else searchDigits cs

/-- Model of `re.search(r'REQ-\d+', s)` (red_to_green.py line 101): the
leftmost occurrence of `REQ-` followed by a maximal non-empty digit run. -/
def reqSearch : List Char → Option (List Char)
  | 'R' :: 'E' :: 'Q' :: '-' :: d :: rest =>
    if d.isDigit then some ('R' :: 'E' :: 'Q' :: '-' :: d :: rest.takeWhile Char.isDigit)
    else reqSearch ('E' :: 'Q' :: '-' :: d :: rest)
  | _ :: cs => reqSearch cs
  | [] => none

/-- Fuelled counter for `len(re.findall(r'REQ-\d+', s))`
(constitutional_validator.py line 279): non-overlapping matches. -/
def reqRefCountAux : Nat → List Char → Nat
  | 0, _ => 0
  | _ + 1, [] => 0
  | fuel + 1, 'R' :: 'E' :: 'Q' :: '-' :: d :: rest =>
    if d.isDigit then 1 + reqRefCountAux fuel (rest.dropWhile Char.isDigit)
    else reqRefCountAux fuel ('E' :: 'Q' :: '-' :: d :: rest)
  | fuel + 1, _ :: cs => reqRefCountAux fuel cs

/-- Number of `REQ-<digits>` references in a document
(`len(re.findall(r'REQ-\d+', content))`). -/
def reqRefCount (s : String) : Nat := reqRefCountAux s.data.length s.data

/-- Python exception surfaced by a script (the only one these models can
raise: `None.group()` raising `AttributeError`). -/
inductive PyErr where
  | attrError
deriving DecidableEq, Repr

-- Equality of modelled Python results, to state concrete evaluations of
-- fallible operations.
deriving instance DecidableEq for Except

namespace SpecToReq

/-- `UserOutcome` dataclass (spec_to_requirements.py lines 14-20). -/
structure UserOutcome where
  id : String
  description : String
  success_criteria : List String
  constraints : List String
deriving DecidableEq, Repr

/-- `Requirement` dataclass (spec_to_requirements.py lines 23-30). -/
structure Requirement where
  id : String
  outcome_id : String
  constraint : String
  component : String
  acceptance : String
deriving DecidableEq, Repr

/-- `TestCase` dataclass (spec_to_requirements.py lines 33-42). -/
structure TestCase where
  id : String
  requirement_id : String
  outcome_id : String
  test_type : String
  input_data : String
  expected_output : String
  verify_command : String
deriving DecidableEq, Repr

/-- The ordered `component_map` dictionary of
`SpecToRequirementsTransformer.select_component` (lines 90-102); a Python
dict preserves insertion order, so iteration is first-match-wins over this
list. -/
def componentMap : List (String × String) :=
  [("authentication", "Django auth (django.contrib.auth)"),
   ("api", "Django @api_view decorator"),
   ("model", "Django ORM (models.Model)"),
   ("task", "Celery @shared_task"),
   ("validation", "Django forms (forms.Form)"),
   ("ui", "React functional component"),
   ("state", "useState/useContext hooks"),
   ("routing", "React Router"),
   ("http", "Axios client"),
   ("form", "React controlled components"),
   ("style", "CSS modules")]

/-- `SpecToRequirementsTransformer.select_component` (lines 87-114): first
key contained in the lower-cased requirement text wins, otherwise a
stack-based default. -/
def selectComponent (requirement_type : String) : String :=
  let reqLower := pyLower requirement_type
  match componentMap.find? (fun kv => containsL kv.1.data reqLower.data) with
  | some kv => kv.2
  | none =>
    if pyIn "frontend" reqLower || pyIn "ui" reqLower then "React functional component"
    else "Django @api_view decorator"

/-- The word-character class of the regex `\b` boundary in
`re.sub(r'\b(should|must|will|shall)\b', ...)` (ASCII `\w`). -/
def isWordChar (c : Char) : Bool := c.isAlphanum || c = '_'

/-- The alternation `(should|must|will|shall)`, in source order. -/
def modalWords : List (List Char) :=
  [("should").data, ("must").data, ("will").data, ("shall").data]

/-- Case-insensitive literal-word match at the head of `s`; returns the rest
of `s` past the word. -/
def matchWordCI (w s : List Char) : Option (List Char) :=
  if (s.take w.length).map Char.toLower = w then some (s.drop w.length) else none

/-- The trailing `\b` of the modal-word pattern: the next character (if any)
is not a word character. -/
def boundaryAfterOk : List Char → Bool
  | [] => true
  | d :: _ => !isWordChar d

/-- One attempted match of `\b(should|must|will|shall)\b` at the current
position (the leading `\b` is checked by the caller via the previous
character). -/
def findModalAt (s : List Char) : Option (List Char) :=
  modalWords.findSome? (fun w =>
    match matchWordCI w s with
    | some r => if boundaryAfterOk r then some r else none
    | none => none)

/-- Fuelled scanner for
`re.sub(r'\b(should|must|will|shall)\b', '', criterion, flags=re.IGNORECASE)`
(line 143): left-to-right non-overlapping substitution by the empty string.
`prevW` records whether the previous character of the original string is a
word character (the leading `\b`); after a substitution it is `true` since
every modal word ends in a word character. -/
def subModalAux : Nat → Bool → List Char → List Char
  | 0, _, s => s
  | _ + 1, _, [] => []
  | fuel + 1, prevW, c :: cs =>
    if prevW then c :: subModalAux fuel (isWordChar c) cs
    else
      match findModalAt (c :: cs) with
      | some rest => subModalAux fuel true rest
      | none => c :: subModalAux fuel (isWordChar c) cs

/-- `SpecToRequirementsTransformer._simplify_constraint` (lines 140-145):
strip modal verbs, trim, capitalize, and truncate to at most 100 characters
(97 characters plus `...` when the simplified text is 100 or longer). -/
def simplifyConstraint (criterion : String) : String :=
  let simplified := pyCapitalize (pyStrip ⟨subModalAux criterion.data.length false criterion.data⟩)
  if simplified.length < 100 then simplified
  else ⟨simplified.data.take 97 ++ ("...").data⟩

/-- `SpecToRequirementsTransformer._derive_acceptance` (lines 147-160). -/
def deriveAcceptance (criterion : String) : String :=
  let cl := pyLower criterion
  if pyIn "display" cl || pyIn "show" cl then "UI element renders with data"
  else if pyIn "create" cl || pyIn "add" cl then "Returns ID when created"
  else if pyIn "update" cl || pyIn "edit" cl then "Returns success status"
  else if pyIn "delete" cl || pyIn "remove" cl then "Returns confirmation"
  else if pyIn "validate" cl then "Returns valid/invalid with errors"
  else "Operation completes successfully"

/-- Inner loop of `derive_requirements` (lines 121-136): one requirement per
success criterion, with the running requirement counter `c`. -/
def deriveFromCriteria : Nat → String → List String → List Requirement
  | _, _, [] => []
  | c, oid, criterion :: rest =>
    { id := "REQ-" ++ pad3 c
      outcome_id := oid
      constraint := simplifyConstraint criterion
      component := selectComponent criterion
      acceptance := deriveAcceptance criterion } :: deriveFromCriteria (c + 1) oid rest

/-- Outer loop of `derive_requirements`, threading the global counter across
outcomes. -/
def deriveRequirementsAux : Nat → List UserOutcome → List Requirement
  | _, [] => []
  | c, o :: os =>
    deriveFromCriteria c o.id o.success_criteria ++
      deriveRequirementsAux (c + o.success_criteria.length) os

/-- `SpecToRequirementsTransformer.derive_requirements` (lines 116-138);
the counter starts at 1. -/
def deriveRequirements (outcomes : List UserOutcome) : List Requirement :=
  deriveRequirementsAux 1 outcomes

/-- `SpecToRequirementsTransformer._generate_test_input` (lines 197-206). -/
def generateTestInput (req : Requirement) : String :=
  if pyIn "api" (pyLower req.component) then "POST /api/resource/ \x7b\x22name\x22: \x22Test\x22\x7d"
  else if pyIn "model" (pyLower req.component) then "Model.objects.create(name=\x22Test\x22)"
  else if pyIn "React" req.component then "<Component id=\x7b1\x7d />"
  else "Standard test input"

/-- Body of the `derive_test_cases` loop (lines 167-193) for one requirement
at counter `c`: test type and verification command from the component. -/
def deriveOneTestCase (c : Nat) (req : Requirement) : TestCase :=
  let tt :=
    if pyIn "Django" req.component then
      ("Backend Integration", "pytest tests/integration/test_feature.py::test_" ++ natStr c)
    else if pyIn "React" req.component then
      ("Frontend Integration", "npm test -- Feature.test.tsx")
    else if pyIn "Celery" req.component then
      ("Backend Integration", "pytest tests/integration/test_tasks.py::test_" ++ natStr c)
    else
      ("Integration", "pytest tests/integration/test_" ++ natStr c ++ ".py")
  { id := "TEST-" ++ pad3 c
    requirement_id := req.id
    outcome_id := req.outcome_id
    test_type := tt.1
    input_data := generateTestInput req
    expected_output := req.acceptance
    verify_command := tt.2 }

/-- Counter-threaded loop of `derive_test_cases` (lines 162-195). -/
def deriveTestCasesAux : Nat → List Requirement → List TestCase
  | _, [] => []
  | c, r :: rs => deriveOneTestCase c r :: deriveTestCasesAux (c + 1) rs

/-- `SpecToRequirementsTransformer.derive_test_cases`; the counter starts
at 1. -/
def deriveTestCases (reqs : List Requirement) : List TestCase :=
  deriveTestCasesAux 1 reqs

/-- `SpecToRequirementsTransformer.generate_requirements_file`
(lines 208-231): the serialized requirements.md text. -/
def generateRequirementsFile (reqs : List Requirement) : String :=
  String.intercalate "\n"
    (["# Requirements", "", "## Derived Requirements", ""] ++
      reqs.flatMap (fun r =>
        [r.id ++ ": [" ++ r.outcome_id ++ "]",
         "- Constraint: " ++ r.constraint,
         "- Component: " ++ r.component,
         "- Acceptance: " ++ r.acceptance,
         ""]) ++
      ["## Validation Checklist", "",
       "- [ ] All requirements traced to user outcomes",
       "- [ ] All components from architecture-boundaries.md",
       "- [ ] No custom implementations required",
       "- [ ] Minimal scope per requirement",
       ""])

/-- `SpecToRequirementsTransformer.generate_test_cases_file`
(lines 233-257): the serialized test-cases.md text. -/
def generateTestCasesFile (tcs : List TestCase) : String :=
  String.intercalate "\n"
    (["# Test Cases", "", "## Derived Test Cases", ""] ++
      tcs.flatMap (fun t =>
        [t.id ++ ": [" ++ t.requirement_id ++ "→" ++ t.outcome_id ++ "]",
         "- Type: " ++ t.test_type,
         "- Input: " ++ t.input_data,
         "- Expected: " ++ t.expected_output,
         "- Verify: `" ++ t.verify_command ++ "`",
         ""]) ++
      ["## Coverage Checklist", "",
       "- [ ] All requirements have test cases",
       "- [ ] All test types appropriate for stack",
       "- [ ] All verification commands executable",
       "- [ ] Traceability chain complete",
       ""])

/-- `SpecToRequirementsTransformer.transform` (lines 259-274), from parsed
outcome records to the pair (requirements.md text, test-cases.md text). -/
def transform (outcomes : List UserOutcome) : String × String :=
  let requirements := deriveRequirements outcomes
  let test_cases := deriveTestCases requirements
  (generateRequirementsFile requirements, generateTestCasesFile test_cases)

end SpecToReq

namespace ReqToRed

/-- `TestCase` dataclass (requirements_to_red.py lines 14-23). -/
structure TestCase where
  id : String
  requirement_id : String
  outcome_id : String
  test_type : String
  input_data : String
  expected_output : String
  verify_command : String
deriving DecidableEq, Repr

/-- `RedTask` dataclass (requirements_to_red.py lines 26-37). -/
structure RedTask where
  id : String
  test_id : String
  traceability : String
  test_type : String
  file_location : String
  function_name : String
  expected_failure : String
  verify_failure : String
deriving DecidableEq, Repr

/-- `RedSetupTask` dataclass (requirements_to_red.py lines 39-47). -/
structure RedSetupTask where
  id : String
  description : String
  purpose : String
  dependencies : String
  configuration : String
  verify_setup : String
deriving DecidableEq, Repr

/-- One raw match of the test-case pattern
`(TEST-\d+): \[(.*?)\]\n- Type: (.*?)\n- Input: (.*?)\n- Expected: (.*?)\n- Verify: \x60(.*?)\x60`
of `parse_test_cases` (line 68): the six capture groups, in order (full test
id, bracket interior, type, input, expected, verify command). -/
structure TCMatch where
  g0 : String
  g1 : String
  g2 : String
  g3 : String
  g4 : String
  g5 : String
deriving DecidableEq, Repr

/-- `RequirementsToRedTransformer.parse_test_cases` (lines 63-87) applied to
the regex matches: splits the bracket interior on `→` into requirement and
outcome ids (empty outcome when there is no arrow) and strips the remaining
fields. -/
def parseTestCases (ms : List TCMatch) : List TestCase :=
  ms.map (fun m =>
    let trace_parts := pySplit m.g1 '→'
    { id := m.g0
      requirement_id := trace_parts.headD ""
      outcome_id := trace_parts.getD 1 ""
      test_type := pyStrip m.g2
      input_data := pyStrip m.g3
      expected_output := pyStrip m.g4
      verify_command := pyStrip m.g5 })

/-- `RequirementsToRedTransformer.determine_file_location` (lines 89-112).
`re.search(r'\d+', test_id).group()` raises `AttributeError` when the test
id holds no digit. -/
def determineFileLocation (test_type test_id : String) : Except PyErr String := do
  let test_num : String ←
    match searchDigits test_id.data with
    | some ds => pure ⟨ds⟩
    | none => throw .attrError
  if pyIn "Backend" test_type then
    if pyIn "Integration" test_type then pure ("tests/integration/test_feature_" ++ test_num ++ ".py")
    else if pyIn "Contract" test_type then pure ("tests/contract/test_api_" ++ test_num ++ ".py")
    else if pyIn "Unit" test_type then pure ("tests/unit/test_module_" ++ test_num ++ ".py")
    else pure ("tests/test_" ++ test_num ++ ".py")
  else if pyIn "Frontend" test_type then
    if pyIn "Integration" test_type then
      pure ("src/frontend/tests/integration/Feature" ++ test_num ++ ".test.tsx")
    else if pyIn "Unit" test_type then
      pure ("src/frontend/tests/unit/module" ++ test_num ++ ".test.ts")
    else pure ("src/frontend/tests/test_" ++ test_num ++ ".tsx")
  else if pyIn "Load" test_type then pure ("tests/performance/test_load_" ++ test_num ++ ".py")
  else pure ("tests/integration/test_" ++ test_num ++ ".py")

/-- `RequirementsToRedTransformer.determine_function_name` (lines 114-123). -/
def determineFunctionName (test_id test_type : String) : Except PyErr String := do
  let test_num : String ←
    match searchDigits test_id.data with
    | some ds => pure ⟨ds⟩
    | none => throw .attrError
  if pyIn "Backend" test_type || pyIn "Load" test_type then
    pure ("test_scenario_" ++ test_num ++ "()")
  else if pyIn "Frontend" test_type then pure ("test_component_" ++ test_num ++ "()")
  else pure ("test_case_" ++ test_num ++ "()")

/-- `RequirementsToRedTransformer.determine_expected_failure`
(lines 125-136). -/
def determineExpectedFailure (_test_type input_data : String) : String :=
  if pyIn "model" (pyLower input_data) || pyIn "Model" input_data then
    "ImportError (Model not implemented)"
  else if pyIn "api" (pyLower input_data) || pyIn "/api/" input_data then
    "URLError (API endpoint not implemented)"
  else if pyIn "Component" input_data then "Component not implemented"
  else if pyIn "task" (pyLower input_data) then "ImportError (Task not implemented)"
  else "Function/Module not implemented"

/-- Python `Path(p).name`: the final path component (POSIX separator). -/
def pathName (p : String) : String := (pySplit p '/').getLastD ""

/-- `RequirementsToRedTransformer.generate_verify_command` (lines 138-148). -/
def generateVerifyCommand (file_location function_name : String) : String :=
  let func_without_parens := pyReplace function_name "()" ""
  if pyEndsWith file_location ".py" then
    "pytest " ++ file_location ++ "::" ++ func_without_parens ++ " --tb=short"
  else if pyEndsWith file_location ".tsx" || pyEndsWith file_location ".ts" then
    "npm test -- " ++ pathName file_location
  else "python " ++ file_location

/-- Loop body of `create_red_tasks` (lines 150-174) with the running task
counter; the traceability chain is
`[test_id→requirement_id→outcome_id]`. -/
def createRedTasksAux : Nat → List TestCase → Except PyErr (List RedTask)
  | _, [] => pure []
  | c, tc :: rest => do
    let file_location ← determineFileLocation tc.test_type tc.id
    let function_name ← determineFunctionName tc.id tc.test_type
    let expected_failure := determineExpectedFailure tc.test_type tc.input_data
    let verify_command := generateVerifyCommand file_location function_name
    let task : RedTask :=
      { id := pad3 c
        test_id := tc.id
        traceability := "[" ++ tc.id ++ "→" ++ tc.requirement_id ++ "→" ++ tc.outcome_id ++ "]"
        test_type := tc.test_type
        file_location := file_location
        function_name := function_name
        expected_failure := expected_failure
        verify_failure := verify_command }
    let rest' ← createRedTasksAux (c + 1) rest
    pure (task :: rest')

/-- `RequirementsToRedTransformer.create_red_tasks`; counter starts at 1. -/
def createRedTasks (test_cases : List TestCase) : Except PyErr (List RedTask) :=
  createRedTasksAux 1 test_cases

/-- The database setup task of `create_setup_tasks` (lines 194-202). -/
def dbSetupTask (id : String) : RedSetupTask :=
  { id := id
    description := "Setup test database for Django"
    purpose := "Enable backend integration tests"
    dependencies := "DATABASE fixtures, Django test client"
    configuration := "DATABASES test settings, migrations"
    verify_setup := "pytest tests/integration --collect-only" }

/-- The mock setup task of `create_setup_tasks` (lines 205-213). -/
def mockSetupTask (id : String) : RedSetupTask :=
  { id := id
    description := "Setup API contract mocks"
    purpose := "Enable contract testing"
    dependencies := "MOCK libraries, test fixtures"
    configuration := "Mock service endpoints"
    verify_setup := "python -c \x22import tests.mocks; print('OK')\x22" }

/-- The frontend setup task of `create_setup_tasks` (lines 216-224). -/
def frontendSetupTask (id : String) : RedSetupTask :=
  { id := id
    description := "Setup React testing environment"
    purpose := "Enable frontend testing"
    dependencies := "Vitest, Testing Library, jsdom"
    configuration := "Vitest config, test setup"
    verify_setup := "npm test -- --run" }

/-- `RequirementsToRedTransformer.create_setup_tasks` (lines 176-227): one
pass over the whole test-case set determines which of the three
infrastructure tasks are needed; they are appended in the fixed order
database, mocks, frontend, with a running counter for the ids. -/
def createSetupTasks (test_cases : List TestCase) : List RedSetupTask :=
  let needs_database := test_cases.any (fun tc => pyIn "Backend" tc.test_type)
  let needs_mocks := test_cases.any (fun tc => pyIn "Contract" tc.test_type)
  let needs_frontend := test_cases.any (fun tc => pyIn "Frontend" tc.test_type)
  let l1 := if needs_database then [dbSetupTask (pad3 1)] else []
  let c1 := if needs_database then 2 else 1
  let l2 := if needs_mocks then l1 ++ [mockSetupTask (pad3 c1)] else l1
  let c2 := if needs_mocks then c1 + 1 else c1
  if needs_frontend then l2 ++ [frontendSetupTask (pad3 c2)] else l2

/-- `RequirementsToRedTransformer.generate_red_phase_file` (lines 229-271):
the serialized red-phase.md text. -/
def generateRedPhaseFile (setup_tasks : List RedSetupTask) (red_tasks : List RedTask) : String :=
  String.intercalate "\n"
    (["# Red Phase: Failing Test Implementation", ""] ++
      (if setup_tasks.isEmpty then []
       else
         ["## Infrastructure Setup Tasks", ""] ++
           setup_tasks.flatMap (fun t =>
             ["RED-SETUP-" ++ t.id ++ ": " ++ t.description,
              "- Purpose: " ++ t.purpose,
              "- Dependencies: " ++ t.dependencies,
              "- Configuration: " ++ t.configuration,
              "- Verify Setup: `" ++ t.verify_setup ++ "`",
              ""])) ++
      ["## Test Implementation Tasks", ""] ++
      red_tasks.flatMap (fun t =>
        ["RED-" ++ t.id ++ ": Write failing test [" ++ t.test_id ++ "]",
         "- Traceability: " ++ t.traceability,
         "- Test Type: " ++ t.test_type,
         "- File Location: " ++ t.file_location,
         "- Function Name: " ++ t.function_name,
         "- Expected Failure: " ++ t.expected_failure,
         "- Verify Failure: `" ++ t.verify_failure ++ "`",
         ""]) ++
      ["## Validation Tasks", "",
       "RED-VALIDATE-001: Verify all tests fail as expected",
       "- Command: `pytest tests/ --tb=line | grep FAILED`",
       "- Expected: All RED-XXX tests show FAILED status",
       "- Success: No passing tests in red phase",
       ""])

/-- `RequirementsToRedTransformer.transform` (lines 273-287), from the parsed
test-case matches to the red-phase.md text (the `AttributeError` of
`determine_file_location`/`determine_function_name` propagates, as in
Python). -/
def transform (ms : List TCMatch) : Except PyErr String := do
  let test_cases := parseTestCases ms
  let red_tasks ← createRedTasks test_cases
  let setup_tasks := createSetupTasks test_cases
  pure (generateRedPhaseFile setup_tasks red_tasks)

end ReqToRed

namespace RedToGreen

/-- `RedTask` dataclass (red_to_green.py lines 14-24). -/
structure RedTask where
  id : String
  test_id : String
  traceability : String
  test_type : String
  file_location : String
  function_name : String
  expected_failure : String
  verify_failure : String
deriving DecidableEq, Repr

/-- `GreenTask` dataclass (red_to_green.py lines 27-38). -/
structure GreenTask where
  id : String
  requirement_id : String
  red_task_id : String
  traceability : String
  component : String
  file_location : String
  implementation : String
  configuration : String
  verify_pass : String
deriving DecidableEq, Repr

/-- `GreenIntegrationTask` dataclass (red_to_green.py lines 41-50). -/
structure GreenIntegrationTask where
  id : String
  component1 : String
  component2 : String
  purpose : String
  configuration : String
  dependencies : String
  verify_integration : String
deriving DecidableEq, Repr

/-- `GreenConfigTask` dataclass (red_to_green.py lines 53-61). -/
structure GreenConfigTask where
  id : String
  description : String
  purpose : String
  commands : String
  dependencies : String
  verify : String
deriving DecidableEq, Repr

/-- One raw match of the RED-task pattern of `parse_red_tasks` (line 82):
the eight capture groups (task number, test id, traceability, type, file
location, function name, expected failure, verify command). -/
structure RedMatch where
  g0 : String
  g1 : String
  g2 : String
  g3 : String
  g4 : String
  g5 : String
  g6 : String
  g7 : String
deriving DecidableEq, Repr

/-- `RedToGreenTransformer.parse_red_tasks` (lines 77-97) applied to the
matches: the id keeps the `RED-` prefix, the other fields are stripped. -/
def parseRedTasks (ms : List RedMatch) : List RedTask :=
  ms.map (fun m =>
    { id := "RED-" ++ m.g0
      test_id := pyStrip m.g1
      traceability := pyStrip m.g2
      test_type := pyStrip m.g3
      file_location := pyStrip m.g4
      function_name := pyStrip m.g5
      expected_failure := pyStrip m.g6
      verify_failure := pyStrip m.g7 })

/-- `RedToGreenTransformer.extract_requirement_id` (lines 99-102): the first
`REQ-<digits>` in the traceability chain, or the sentinel `REQ-UNKNOWN`. -/
def extractRequirementId (traceability : String) : String :=
  match reqSearch traceability.data with
  | some m => ⟨m⟩
  | none => "REQ-UNKNOWN"

/-- `RedToGreenTransformer.select_component` (lines 104-129). -/
def selectComponent (test_type expected_failure : String) : String :=
  if pyIn "Backend" test_type then
    if pyIn "Model" expected_failure || pyIn "ImportError" expected_failure then
      "Django ORM (models.Model from .lsf/memory/architecture-boundaries.md)"
    else if pyIn "API" expected_failure || pyIn "URLError" expected_failure then
      "Django API view (@api_view from .lsf/memory/architecture-boundaries.md)"
    else if pyIn "Task" expected_failure then
      "Celery task (@shared_task from .lsf/memory/architecture-boundaries.md)"
    else "Django function from existing patterns"
  else if pyIn "Frontend" test_type then
    if pyIn "Component" expected_failure then
      "React functional component (from .lsf/memory/architecture-boundaries.md)"
    else if pyIn "Hook" expected_failure then
      "React hooks (useState/useEffect from .lsf/memory/architecture-boundaries.md)"
    else if pyIn "Service" expected_failure then
      "Axios API client (from .lsf/memory/architecture-boundaries.md)"
    else "React component from existing patterns"
  else "Existing component from .lsf/memory/architecture-boundaries.md"

/-- Model of `re.search(r'(\w+)\.test\.tsx', s)` (line 146): the leftmost
position carrying a non-empty maximal word-character run followed by the
literal `.test.tsx`; returns the run.  (Shorter runs at the same position
cannot match, since the character after them is a word character, not a
dot, so greedy backtracking never helps.) -/
def componentNameSearch : List Char → Option (List Char)
  | [] => none
  | c :: cs =>
    let run := (c :: cs).takeWhile SpecToReq.isWordChar
    if !run.isEmpty && (".test.tsx").data.isPrefixOf ((c :: cs).drop run.length)
    then some run
    else componentNameSearch cs

/-- `RedToGreenTransformer.determine_file_location` (lines 131-156). -/
def determineFileLocation (test_location test_type : String) : String :=
  if pyIn "Backend" test_type then
    if pyIn "integration/test_" test_location then
      if pyIn "Model" test_type then "src/core/models.py" else "src/core/views.py"
    else if pyIn "contract/test_" test_location then "src/api/views.py"
    else if pyIn "unit/test_" test_location then "src/utils/functions.py"
    else "src/app.py"
  else if pyIn "Frontend" test_type then
    if pyIn "integration/" test_location then
      match componentNameSearch test_location.data with
      | some run => "src/frontend/src/components/" ++ (⟨run⟩ : String) ++ ".tsx"
      | none => "src/frontend/src/components/Component.tsx"
    else if pyIn "unit/" test_location then "src/frontend/src/utils/functions.ts"
    else "src/frontend/src/App.tsx"
  else "src/implementation.py"

/-- `RedToGreenTransformer.determine_implementation` (lines 158-173). -/
def determineImplementation (component test_id : String) : String :=
  if pyIn "models.Model" component then test_id ++ " model with required fields"
  else if pyIn "@api_view" component then test_id ++ " endpoint with validation"
  else if pyIn "@shared_task" component then test_id ++ " async task with error handling"
  else if pyIn "React functional component" component then
    test_id ++ " component with props interface"
  else if pyIn "React hooks" component then test_id ++ " hook with state management"
  else if pyIn "Axios" component then test_id ++ " service with API methods"
  else "Minimal implementation for " ++ test_id

/-- `RedToGreenTransformer.determine_configuration` (lines 175-188): the
`if/elif` chain appends at most one entry to `configs`, so the
`', '.join` is that entry or the string `None`. -/
def determineConfiguration (component _file_location : String) : String :=
  if pyIn "models.Model" component then "Add to INSTALLED_APPS, run migrations"
  else if pyIn "@api_view" component then "Add URL pattern to urls.py"
  else if pyIn "@shared_task" component then "Import in celery.py autodiscover"
  else if pyIn "React" component then "Export from index.ts"
  else "None"

/-- Loop body of `create_green_tasks` (lines 206-235) for one red task at
counter `c`; the passing verification command is the failing one with
`--tb=short` removed and the result stripped. -/
def mkGreenTask (c : Nat) (red_task : RedTask) : GreenTask :=
  let component := selectComponent red_task.test_type red_task.expected_failure
  let file_location := determineFileLocation red_task.file_location red_task.test_type
  { id := pad3 c
    requirement_id := extractRequirementId red_task.traceability
    red_task_id := red_task.id
    traceability := red_task.traceability
    component := component
    file_location := file_location
    implementation := determineImplementation component red_task.test_id
    configuration := determineConfiguration component file_location
    verify_pass := pyStrip (pyReplace red_task.verify_failure "--tb=short" "") }

/-- Counter-threaded loop of `create_green_tasks`. -/
def createGreenTasksAux : Nat → List RedTask → List GreenTask
  | _, [] => []
  | c, r :: rs => mkGreenTask c r :: createGreenTasksAux (c + 1) rs

/-- `RedToGreenTransformer.create_green_tasks`; counter starts at 1. -/
def createGreenTasks (red_tasks : List RedTask) : List GreenTask :=
  createGreenTasksAux 1 red_tasks

/-- `RedToGreenTransformer.create_integration_tasks` (lines 237-271). -/
def createIntegrationTasks (green_tasks : List GreenTask) : List GreenIntegrationTask :=
  let has_models := green_tasks.any (fun t => pyIn "models.Model" t.component)
  let has_api := green_tasks.any (fun t => pyIn "@api_view" t.component)
  let has_frontend := green_tasks.any (fun t => pyIn "React" t.component)
  let l1 :=
    if has_models then
      [{ id := pad3 1
         component1 := "Django models"
         component2 := "Django admin"
         purpose := "Enable admin interface for models"
         configuration := "Register models in admin.py"
         dependencies := "Model implementations"
         verify_integration := "python manage.py check" : GreenIntegrationTask }]
    else []
  let c1 := if has_models then 2 else 1
  if has_api && has_frontend then
    l1 ++
      [{ id := pad3 c1
         component1 := "Django API"
         component2 := "React components"
         purpose := "Connect backend API with frontend"
         configuration := "CORS settings, API base URL"
         dependencies := "Backend API + Frontend service"
         verify_integration := "tests/run_all_tests_parallelized.py" }]
  else l1

/-- `RedToGreenTransformer.create_config_tasks` (lines 273-291). -/
def createConfigTasks (green_tasks : List GreenTask) : List GreenConfigTask :=
  let has_models := green_tasks.any (fun t => pyIn "models.Model" t.component)
  if has_models then
    [{ id := pad3 1
       description := "database migrations"
       purpose := "Apply model changes to database"
       commands := "python manage.py makemigrations && python manage.py migrate"
       dependencies := "Model implementations"
       verify := "python manage.py showmigrations" }]
  else []

/-- Serialization of one implementation task inside
`generate_green_phase_file` (lines 304-313 and 320-329). -/
def greenTaskLines (t : GreenTask) : List String :=
  ["GREEN-" ++ t.id ++ ": Implement [" ++ t.requirement_id ++ "] to pass [" ++ t.red_task_id ++ "]",
   "- Traceability: " ++ t.traceability,
   "- Component: " ++ t.component,
   "- File Location: " ++ t.file_location,
   "- Implementation: " ++ t.implementation,
   "- Configuration: " ++ t.configuration,
   "- Verify Pass: `" ++ t.verify_pass ++ "`",
   ""]

/-- `RedToGreenTransformer.generate_green_phase_file` (lines 293-357). -/
def generateGreenPhaseFile (green_tasks : List GreenTask)
    (int_tasks : List GreenIntegrationTask) (config_tasks : List GreenConfigTask) : String :=
  let backend_tasks := green_tasks.filter
    (fun t => pyIn "Backend" t.red_task_id || pyIn "Django" t.component)
  let frontend_tasks := green_tasks.filter
    (fun t => pyIn "Frontend" t.red_task_id || pyIn "React" t.component)
  String.intercalate "\n"
    (["# Green Phase: Implementation to Pass Tests", ""] ++
      (if backend_tasks.isEmpty then []
       else ["## Backend Implementation Tasks", ""] ++ backend_tasks.flatMap greenTaskLines) ++
      (if frontend_tasks.isEmpty then []
       else ["## Frontend Implementation Tasks", ""] ++ frontend_tasks.flatMap greenTaskLines) ++
      (if int_tasks.isEmpty then []
       else
         ["## Integration Tasks", ""] ++
           int_tasks.flatMap (fun t =>
             ["GREEN-INT-" ++ t.id ++ ": Integrate " ++ t.component1 ++ " with " ++ t.component2,
              "- Purpose: " ++ t.purpose,
              "- Configuration: " ++ t.configuration,
              "- Dependencies: " ++ t.dependencies,
              "- Verify Integration: `" ++ t.verify_integration ++ "`",
              ""])) ++
      (if config_tasks.isEmpty then []
       else
         ["## Configuration Tasks", ""] ++
           config_tasks.flatMap (fun t =>
             ["GREEN-CONFIG-" ++ t.id ++ ": Configure " ++ t.description,
              "- Purpose: " ++ t.purpose,
              "- Commands: `" ++ t.commands ++ "`",
              "- Dependencies: " ++ t.dependencies,
              "- Verify: `" ++ t.verify ++ "`",
              ""])))

/-- `RedToGreenTransformer.transform` (lines 359-376), from the parsed RED
matches to the green-phase.md text. -/
def transform (ms : List RedMatch) : String :=
  let red_tasks := parseRedTasks ms
  let green_tasks := createGreenTasks red_tasks
  let int_tasks := createIntegrationTasks green_tasks
  let config_tasks := createConfigTasks green_tasks
  generateGreenPhaseFile green_tasks int_tasks config_tasks

end RedToGreen

namespace TaskParsing

/-- `RedSetupTask` dataclass (task_parser.py lines 15-23). -/
structure RedSetupTask where
  id : String
  description : String
  purpose : String
  dependencies : String
  configuration : String
  verify_command : String
deriving DecidableEq, Repr

/-- `RedTestTask` dataclass (task_parser.py lines 26-36). -/
structure RedTestTask where
  id : String
  test_id : String
  traceability : String
  test_type : String
  file_location : String
  function_name : String
  expected_failure : String
  verify_command : String
deriving DecidableEq, Repr

/-- `GreenImplementationTask` dataclass (task_parser.py lines 39-50). -/
structure GreenImplementationTask where
  id : String
  requirement_id : String
  red_task_id : String
  traceability : String
  component : String
  file_location : String
  implementation : String
  configuration : String
  verify_command : String
deriving DecidableEq, Repr

/-- `GreenIntegrationTask` dataclass (task_parser.py lines 53-62). -/
structure GreenIntegrationTask where
  id : String
  component1 : String
  component2 : String
  purpose : String
  configuration : String
  dependencies : String
  verify_command : String
deriving DecidableEq, Repr

/-- `GreenConfigTask` dataclass (task_parser.py lines 65-73). -/
structure GreenConfigTask where
  id : String
  description : String
  purpose : String
  commands : String
  dependencies : String
  verify_command : String
deriving DecidableEq, Repr

/-- `GreenSkipTask` dataclass (task_parser.py lines 76-84). -/
structure GreenSkipTask where
  id : String
  requirement_id : String
  reason : String
  component : String
  verification : String
  verify_command : String
deriving DecidableEq, Repr

/-- `GreenReviewTask` dataclass (task_parser.py lines 87-95). -/
structure GreenReviewTask where
  id : String
  requirement_id : String
  reason : String
  analysis : String
  recommendation : String
  status : String
deriving DecidableEq, Repr

/-- Fuelled split at the first occurrence of the literal `lit`:
`some (before, after)` with the input equal to `before ++ lit ++ after`,
`none` when `lit` does not occur.  This is the lazy-capture step
`(.*?)<lit>` of the DOTALL task patterns: the capture stops at the first
occurrence of the following literal. -/
def findSplitAux : Nat → List Char → List Char → Option (List Char × List Char)
  | 0, _, _ => none
  | _ + 1, lit, [] => if lit.isEmpty then some ([], []) else none
  | fuel + 1, lit, c :: cs =>
    if lit.isPrefixOf (c :: cs) then some ([], (c :: cs).drop lit.length)
    else
      match findSplitAux fuel lit cs with
      | some (pre, post) => some (c :: pre, post)
      | none => none

/-- Sequence of lazy captures, one before each literal separator in `seps`;
returns the captures and the rest of the input past the final separator.
This realizes the chain `(.*?)L1(.*?)L2...(.*?)Lk` of the task-record
regexes of task_parser.py for inputs where the labels occur in order (as in
every document the pipeline serializes); it does not model the
backtracking a Python regex would attempt on label-shuffled inputs. -/
def captureSeq : List (List Char) → List Char → Option (List (List Char) × List Char)
  | [], s => some ([], s)
  | sep :: rest, s =>
    match findSplitAux (s.length + 1) sep s with
    | some (cap, s') =>
      match captureSeq rest s' with
      | some (caps, s'') => some (cap :: caps, s'')
      | none => none
    | none => none

/-- Attempt to match one task record at the head of the input: the literal
`lit0`, a non-empty greedy digit run (the `(\d+)` group), the literal
`lit1`, then `seps.length` lazy captures. -/
def tryRecordAt (lit0 lit1 : List Char) (seps : List (List Char)) (s : List Char) :
    Option (List Char × List (List Char) × List Char) :=
  if lit0.isPrefixOf s then
    let afterLit0 := s.drop lit0.length
    let digits := afterLit0.takeWhile Char.isDigit
    if !digits.isEmpty && lit1.isPrefixOf (afterLit0.drop digits.length) then
      match captureSeq seps ((afterLit0.drop digits.length).drop lit1.length) with
      | some (caps, rest) => some (digits, caps, rest)
      | none => none
    else none
  else none

/-- Fuelled left-to-right scan for all non-overlapping matches of one task
record pattern, as `re.findall` performs it: try a match at every position,
resume past each full match. -/
def scanRecordsAux (lit0 lit1 : List Char) (seps : List (List Char)) :
    Nat → List Char → List (List Char × List (List Char))
  | 0, _ => []
  | _ + 1, [] => []
  | fuel + 1, c :: cs =>
    match tryRecordAt lit0 lit1 seps (c :: cs) with
    | some (digits, caps, rest) => (digits, caps) :: scanRecordsAux lit0 lit1 seps fuel rest
    | none => scanRecordsAux lit0 lit1 seps fuel cs

/-- `TaskParser._parse_red_test_tasks` (task_parser.py lines 143-162): the
findall over the pattern
`RED-(\d+): Write failing test \[(.*?)\]\n- Traceability: (.*?)\n- Test Type: ...`,
each group stripped into a `RedTestTask`. -/
def parseRedTestTasksText (content : String) : List RedTestTask :=
  (scanRecordsAux ("RED-").data (": Write failing test [").data
      [("]\n- Traceability: ").data,
       ("\n- Test Type: ").data,
       ("\n- File Location: ").data,
       ("\n- Function Name: ").data,
       ("\n- Expected Failure: ").data,
       ("\n- Verify Failure: `").data,
       ("`").data]
      content.data.length content.data).map (fun m =>
    { id := ⟨m.1⟩
      test_id := pyStrip ⟨m.2.getD 0 []⟩
      traceability := pyStrip ⟨m.2.getD 1 []⟩
      test_type := pyStrip ⟨m.2.getD 2 []⟩
      file_location := pyStrip ⟨m.2.getD 3 []⟩
      function_name := pyStrip ⟨m.2.getD 4 []⟩
      expected_failure := pyStrip ⟨m.2.getD 5 []⟩
      verify_command := pyStrip ⟨m.2.getD 6 []⟩ })

/-- `TaskParser._parse_green_implementation_tasks` (task_parser.py lines
180-200): the findall over the pattern
`GREEN-(\d+): Implement \[(.*?)\] to pass \[(.*?)\]\n- Traceability: ...`. -/
def parseGreenImplTasksText (content : String) : List GreenImplementationTask :=
  (scanRecordsAux ("GREEN-").data (": Implement [").data
      [("] to pass [").data,
       ("]\n- Traceability: ").data,
       ("\n- Component: ").data,
       ("\n- File Location: ").data,
       ("\n- Implementation: ").data,
       ("\n- Configuration: ").data,
       ("\n- Verify Pass: `").data,
       ("`").data]
      content.data.length content.data).map (fun m =>
    { id := ⟨m.1⟩
      requirement_id := pyStrip ⟨m.2.getD 0 []⟩
      red_task_id := pyStrip ⟨m.2.getD 1 []⟩
      traceability := pyStrip ⟨m.2.getD 2 []⟩
      component := pyStrip ⟨m.2.getD 3 []⟩
      file_location := pyStrip ⟨m.2.getD 4 []⟩
      implementation := pyStrip ⟨m.2.getD 5 []⟩
      configuration := pyStrip ⟨m.2.getD 6 []⟩
      verify_command := pyStrip ⟨m.2.getD 7 []⟩ })

/-- The lazy capture `\[(.*?)\]` closing step: the first `]` in the input,
failing at a newline or the end (`.` does not match `\n`, no DOTALL flag on
this pattern).  Returns the rest past the `]`. -/
def closeBracketScan : List Char → Option (List Char)
  | [] => none
  | ']' :: cs => some cs
  | '\n' :: _ => none
  | _ :: cs => closeBracketScan cs

/-- Fuelled counter for `len(re.findall(r'\[(.*?)\]', s))`
(task_parser.py lines 288-299): the number of bracketed groups found by a
left-to-right non-overlapping scan. -/
def bracketGroupAux : Nat → List Char → Nat
  | 0, _ => 0
  | _ + 1, [] => 0
  | fuel + 1, '[' :: cs =>
    match closeBracketScan cs with
    | some rest => 1 + bracketGroupAux fuel rest
    | none => bracketGroupAux fuel cs
  | fuel + 1, _ :: cs => bracketGroupAux fuel cs

/-- Number of bracketed groups `[...]` in a traceability string, as
`validate_traceability` counts them. -/
def bracketGroupCount (s : String) : Nat := bracketGroupAux s.data.length s.data

/-- `TaskParser.validate_traceability` (task_parser.py lines 279-302) on the
document text: one violation per RED test task, then per GREEN
implementation task, whose traceability string decomposes into fewer than 3
bracketed groups. -/
def validateTraceabilityText (content : String) : List String :=
  (parseRedTestTasksText content).filterMap (fun task =>
    if bracketGroupCount task.traceability < 3 then
      some ("RED-" ++ task.id ++ ": Incomplete traceability chain")
    else none) ++
  (parseGreenImplTasksText content).filterMap (fun task =>
    if bracketGroupCount task.traceability < 3 then
      some ("GREEN-" ++ task.id ++ ": Incomplete traceability chain")
    else none)

/-- A parsed record of one of the six canonical kinds, in document order: the
tagged-union document model over which the per-kind `re.findall` extractions
of `TaskParser` act. -/
inductive TaskRecord where
  | setup (t : RedSetupTask)
  | test (t : RedTestTask)
  | impl (t : GreenImplementationTask)
  | integ (t : GreenIntegrationTask)
  | config (t : GreenConfigTask)
  | skip (t : GreenSkipTask)
  | review (t : GreenReviewTask)
deriving DecidableEq, Repr

/-- The setup tasks of a document in document order, as
`_parse_red_setup_tasks`'s findall returns them. -/
def setupTasksOf : List TaskRecord → List RedSetupTask
  | [] => []
  | .setup t :: rs => t :: setupTasksOf rs
  | _ :: rs => setupTasksOf rs

/-- The RED test tasks of a document in document order. -/
def testTasksOf : List TaskRecord → List RedTestTask
  | [] => []
  | .test t :: rs => t :: testTasksOf rs
  | _ :: rs => testTasksOf rs

/-- The GREEN implementation tasks of a document in document order. -/
def implTasksOf : List TaskRecord → List GreenImplementationTask
  | [] => []
  | .impl t :: rs => t :: implTasksOf rs
  | _ :: rs => implTasksOf rs

/-- The GREEN integration tasks of a document in document order. -/
def integTasksOf : List TaskRecord → List GreenIntegrationTask
  | [] => []
  | .integ t :: rs => t :: integTasksOf rs
  | _ :: rs => integTasksOf rs

/-- The GREEN config tasks of a document in document order. -/
def configTasksOf : List TaskRecord → List GreenConfigTask
  | [] => []
  | .config t :: rs => t :: configTasksOf rs
  | _ :: rs => configTasksOf rs

/-- The GREEN skip tasks of a document in document order. -/
def skipTasksOf : List TaskRecord → List GreenSkipTask
  | [] => []
  | .skip t :: rs => t :: skipTasksOf rs
  | _ :: rs => skipTasksOf rs

/-- The GREEN review tasks of a document in document order. -/
def reviewTasksOf : List TaskRecord → List GreenReviewTask
  | [] => []
  | .review t :: rs => t :: reviewTasksOf rs
  | _ :: rs => reviewTasksOf rs

/-- `TaskParser.get_task_execution_order` (task_parser.py lines 324-355):
setup, RED test, GREEN implementation, GREEN config, GREEN integration,
GREEN skip, GREEN review — in that fixed precedence, each group labelled
with its id prefix. -/
def getTaskExecutionOrder (doc : List TaskRecord) : List String :=
  (setupTasksOf doc).map (fun t => "RED-SETUP-" ++ t.id) ++
    (testTasksOf doc).map (fun t => "RED-" ++ t.id) ++
    (implTasksOf doc).map (fun t => "GREEN-" ++ t.id) ++
    (configTasksOf doc).map (fun t => "GREEN-CONFIG-" ++ t.id) ++
    (integTasksOf doc).map (fun t => "GREEN-INT-" ++ t.id) ++
    (skipTasksOf doc).map (fun t => "GREEN-SKIP-" ++ t.id) ++
    (reviewTasksOf doc).map (fun t => "GREEN-REVIEW-" ++ t.id)

end TaskParsing

namespace ConstValidator

/-- `ComplianceViolation` dataclass (constitutional_validator.py lines
15-22). -/
structure Violation where
  principle : String
  severity : String
  location : String
  description : String
  suggestion : String
deriving DecidableEq, Repr

/-- Matcher for `(RED-\d+|GREEN-\d+):` at the current position: returns the
group text (id with prefix, no colon) and the rest past the colon. -/
def tryTaskHeaderColon (s : List Char) : Option (List Char × List Char) :=
  if ("RED-").data.isPrefixOf s then
    let ds := (s.drop 4).takeWhile Char.isDigit
    if !ds.isEmpty && (s.drop (4 + ds.length)).head? = some ':' then
      some (("RED-").data ++ ds, s.drop (4 + ds.length + 1))
    else none
  else if ("GREEN-").data.isPrefixOf s then
    let ds := (s.drop 6).takeWhile Char.isDigit
    if !ds.isEmpty && (s.drop (6 + ds.length)).head? = some ':' then
      some (("GREEN-").data ++ ds, s.drop (6 + ds.length + 1))
    else none
  else none

/-- Matcher for `(?:RED-\d+|GREEN-\d+)` (no colon required), as it appears
inside the lookahead of the `_validate_verification` task pattern. -/
def taskIdNoColonAt (s : List Char) : Bool :=
  (("RED-").data.isPrefixOf s && !((s.drop 4).takeWhile Char.isDigit).isEmpty) ||
    (("GREEN-").data.isPrefixOf s && !((s.drop 6).takeWhile Char.isDigit).isEmpty)

/-- Whether a line opens with a top-level task header: one line contributes
one match to `re.findall(r'^(RED-\d+|GREEN-\d+):', content, re.MULTILINE)`
and to `re.findall(r'^(RED-\d+|GREEN-\d+):.*?$', ...)` alike. -/
def taskHeaderLine (l : String) : Bool := (tryTaskHeaderColon l.data).isSome

/-- `len(re.findall(r'^(RED-\d+|GREEN-\d+):', content, re.MULTILINE))`
(constitutional_validator.py lines 100, 195, 280): the number of lines that
open with a top-level task header. -/
def taskCount (content : String) : Nat :=
  ((pySplit content '\n').filter taskHeaderLine).length

/-- Start positions of the case-insensitive non-overlapping occurrences of
`pat` in `content`, as `re.finditer(re.escape(pat), content, re.IGNORECASE)`
yields them.  Fuelled scan over the lower-cased text. -/
def occPositionsAux (pat : List Char) : Nat → Nat → List Char → List Nat
  | 0, _, _ => []
  | _ + 1, _, [] => []
  | fuel + 1, idx, c :: cs =>
    if pat.isPrefixOf (c :: cs) then
      idx :: occPositionsAux pat fuel (idx + pat.length) ((c :: cs).drop pat.length)
    else occPositionsAux pat fuel (idx + 1) cs

/-- Case-insensitive occurrence positions of `pat` in `content`. -/
def occPositionsCI (pat content : String) : List Nat :=
  occPositionsAux (pyLower pat).data content.data.length 0 (pyLower content).data

/-- `ConstitutionalValidator._get_line_number` (lines 337-339):
`content[:position].count('\n') + 1`. -/
def lineNumberAt (content : String) (pos : Nat) : Nat :=
  (content.data.take pos).count '\n' + 1

/-- Fuelled scanner for the unanchored description pattern
`(RED-\d+|GREEN-\d+):\s*(.*?)(?=\n-|\n\n|$)` with MULTILINE and DOTALL
(`_validate_context_efficiency`, line 73).  Since `$` in MULTILINE matches
before every newline, the lookahead holds exactly at a newline or the end,
so the greedy `\s*` takes the maximal whitespace run after the colon and
the lazy `(.*?)` runs to the next newline; scanning resumes at the match
end. -/
def ctxScanAux : Nat → List Char → List (List Char × List Char)
  | 0, _ => []
  | _ + 1, [] => []
  | fuel + 1, c :: cs =>
    match tryTaskHeaderColon (c :: cs) with
    | some (tid, rest) =>
      let rest2 := rest.dropWhile pyIsSpace
      let desc := rest2.takeWhile (fun ch => ch ≠ '\n')
      (tid, desc) :: ctxScanAux fuel (rest2.drop desc.length)
    | none => ctxScanAux fuel cs

/-- `ConstitutionalValidator._validate_context_efficiency` (lines 69-94). -/
def validateContextEfficiency (content file_path : String) : List Violation :=
  (ctxScanAux content.data.length content.data).filterMap (fun m =>
    let d := pyStrip ⟨m.2⟩
    if d.length > 200 then
      some { principle := "Context Efficiency"
             severity := "warning"
             location := file_path ++ ":" ++ (⟨m.1⟩ : String)
             description := "Task description exceeds 200 characters (" ++ natStr d.length ++ " chars)"
             suggestion := "Shorten task description to essential information only" }
    else none) ++
  (if pyCount content "Implementation:" > 20 then
    [{ principle := "Context Efficiency"
       severity := "warning"
       location := file_path
       description := "High number of implementation tasks may indicate context inefficiency"
       suggestion := "Consider consolidating related tasks or breaking into smaller phases" }]
  else [])

/-- The excessive-task-count violation of `_validate_minimalism` (lines
102-109) at task count `n`. -/
def excessiveTaskViolation (file_path : String) (n : Nat) : Violation :=
  { principle := "Minimalism"
    severity := "error"
    location := file_path
    description := "Excessive task count (" ++ natStr n ++ ") indicates complexity creep"
    suggestion := "Break down into smaller phases or eliminate non-essential tasks" }

/-- The `custom_indicators` list (lines 112-115). -/
def customIndicators : List String :=
  ["custom implementation", "new framework", "additional dependency",
   "build from scratch", "create new", "implement custom"]

/-- The `complex_patterns` list (lines 130-133). -/
def complexPatterns : List String :=
  ["abstract factory", "observer pattern", "strategy pattern",
   "microservice", "distributed", "scalable architecture"]

/-- The per-occurrence custom-implementation violations of
`_validate_minimalism` (lines 117-127). -/
def indicatorViolations (content file_path : String) : List Violation :=
  customIndicators.flatMap (fun ind =>
    if pyInCI ind content then
      (occPositionsCI ind content).map (fun p =>
        { principle := "Minimalism"
          severity := "error"
          location := file_path ++ ":line" ++ natStr (lineNumberAt content p)
          description := "Detected potential custom implementation: '" ++ ind ++ "'"
          suggestion := "Use existing components from architecture boundaries instead" })
    else [])

/-- The over-engineering warnings of `_validate_minimalism` (lines
135-143). -/
def complexPatternViolations (content file_path : String) : List Violation :=
  complexPatterns.filterMap (fun pat =>
    if pyInCI pat content then
      some { principle := "Minimalism"
             severity := "warning"
             location := file_path
             description := "Complex pattern detected: '" ++ pat ++ "' - may be over-engineering"
             suggestion := "Verify this complexity is required by the actual requirements" }
    else none)

/-- `ConstitutionalValidator._validate_minimalism` (lines 96-143). -/
def validateMinimalism (content file_path : String) : List Violation :=
  (if taskCount content > 25 then [excessiveTaskViolation file_path (taskCount content)] else []) ++
    indicatorViolations content file_path ++ complexPatternViolations content file_path

/-- The `non_standard_patterns` list (lines 149-152). -/
def nonStandardPatterns : List String :=
  ["custom ORM", "custom auth", "custom router", "custom validation",
   "handwritten SQL", "custom serialization"]

/-- `ConstitutionalValidator._validate_reasonable_defaults` (lines
145-173). -/
def validateReasonableDefaults (content file_path : String) : List Violation :=
  nonStandardPatterns.filterMap (fun pat =>
    if pyInCI pat content then
      some { principle := "Reasonable Defaults"
             severity := "warning"
             location := file_path
             description := "Non-standard implementation detected: '" ++ pat ++ "'"
             suggestion := "Use framework defaults (Django ORM, auth, etc.) when possible" }
    else none) ++
  (if pyIn "Django" content && !pyIn "models.Model" content && pyIn "model" (pyLower content) then
    [{ principle := "Reasonable Defaults"
       severity := "warning"
       location := file_path
       description := "Django project not using Django ORM for models"
       suggestion := "Use Django's built-in models.Model for data modeling" }]
  else [])

/-- The `human_oriented` phrase list (lines 179-182). -/
def humanOrientedPhrases : List String :=
  ["please", "thank you", "we should", "let's", "I think",
   "in my opinion", "feel free", "don't hesitate"]

/-- `ConstitutionalValidator._validate_agent_centric_content` (lines
175-205).  `re.findall(r'^(RED-\d+|GREEN-\d+):.*?$', content, re.MULTILINE)`
yields one match per task-header line, i.e. `taskCount`. -/
def validateAgentCentric (content file_path : String) : List Violation :=
  humanOrientedPhrases.filterMap (fun phrase =>
    if pyInCI phrase content then
      some { principle := "Agent-centric Content"
             severity := "warning"
             location := file_path
             description := "Human-oriented language detected: '" ++ phrase ++ "'"
             suggestion := "Use imperative, agent-focused language (Create, Implement, Configure)" }
    else none) ++
  (if taskCount content > pyCount content "- Traceability:" then
    [{ principle := "Agent-centric Content"
       severity := "error"
       location := file_path
       description := "Some tasks missing traceability information"
       suggestion := "Add traceability chain to all tasks for agent execution" }]
  else [])

/-- The `non_focus_patterns` list (lines 211-215). -/
def nonFocusPatterns : List String :=
  ["business strategy", "market analysis", "stakeholder meeting",
   "user research", "marketing", "sales", "pricing",
   "business case", "ROI analysis", "stakeholder buy-in"]

/-- `ConstitutionalValidator._validate_focus` (lines 207-235);
`re.search(r'(test|implement|configure|integrate)', content, re.IGNORECASE)`
is a case-insensitive substring test for the four alternatives. -/
def validateFocus (content file_path : String) : List Violation :=
  nonFocusPatterns.filterMap (fun pat =>
    if pyInCI pat content then
      some { principle := "Focus"
             severity := "error"
             location := file_path
             description := "Non-software-production content detected: '" ++ pat ++ "'"
             suggestion := "Remove business/stakeholder content - focus only on software implementation" }
    else none) ++
  (if !(pyInCI "test" content || pyInCI "implement" content ||
        pyInCI "configure" content || pyInCI "integrate" content) then
    [{ principle := "Focus"
       severity := "error"
       location := file_path
       description := "Content lacks implementation focus"
       suggestion := "Ensure all tasks are about testing, implementing, or configuring software" }]
  else [])

/-- The `cross_stack_violations` table (lines 241-246). -/
def crossStackTable : List (String × String × String) :=
  [("django", "frontend", "Django components in frontend"),
   ("react", "backend", "React components in backend"),
   ("jsx", "django", "JSX in Django code"),
   ("models.py", "react", "Django models in React")]

/-- The `test_mixing_patterns` table (lines 260-263). -/
def testMixingTable : List (String × String × String) :=
  [("pytest", "vitest", "Mixing Python and JavaScript test frameworks"),
   ("unittest", "jest", "Mixing different test frameworks")]

/-- `ConstitutionalValidator._validate_boundaries` (lines 237-273). -/
def validateBoundaries (content file_path : String) : List Violation :=
  crossStackTable.filterMap (fun t =>
    if pyInCI t.1 content && pyInCI t.2.1 content && !pyIn "integration" (pyLower content) then
      some { principle := "Boundaries"
             severity := "error"
             location := file_path
             description := t.2.2
             suggestion := "Maintain clean separation between backend (Django) and frontend (React)" }
    else none) ++
  testMixingTable.filterMap (fun t =>
    if pyInCI t.1 content && pyInCI t.2.1 content then
      some { principle := "Boundaries"
             severity := "warning"
             location := file_path
             description := t.2.2
             suggestion := "Use pytest for backend, Vitest for frontend consistently" }
    else none)

/-- The `scope_creep_patterns` list (lines 292-295). -/
def scopeCreepPatterns : List String :=
  ["while we're at it", "also implement", "might as well",
   "additional feature", "enhance with", "extend to include"]

/-- `ConstitutionalValidator._validate_drift_detection` (lines 275-305). -/
def validateDrift (content file_path : String) : List Violation :=
  (if taskCount content > 0 && reqRefCount content = 0 then
    [{ principle := "Drift Detection"
       severity := "error"
       location := file_path
       description := "Tasks not linked to requirements (REQ-XXX)"
       suggestion := "Maintain traceability to original requirements to prevent drift" }]
  else []) ++
  scopeCreepPatterns.filterMap (fun pat =>
    if pyInCI pat content then
      some { principle := "Drift Detection"
             severity := "warning"
             location := file_path
             description := "Potential scope creep detected: '" ++ pat ++ "'"
             suggestion := "Stick to original requirements - additional features should be separate phases" }
    else none)

/-- Whether a line is a position where the lookahead
`(?=^(?:RED-\d+|GREEN-\d+|$))` of the `_validate_verification` task pattern
(line 311) succeeds: a line start that opens a task id, or an empty line
(MULTILINE `$` before its newline, or the end of the text after a final
newline — Python's `str.split('\n')` yields a final empty element exactly
in that case). -/
def boundaryLine (l : String) : Bool := l = "" || taskIdNoColonAt l.data

/-- The strings `re.findall(r'^(RED-\d+|GREEN-\d+):.*?(?=^(?:RED-\d+|GREEN-\d+|$))', content, re.MULTILINE | re.DOTALL)`
returns: with a single capture group, findall yields the group alone — the
bare task id, not the task body.  A header line contributes a match exactly
when some later line satisfies the lookahead (the lazy `.*?` runs under
DOTALL to the first such line start; non-overlapping resumption skips no
later header, since every header line is itself a lookahead position). -/
def verTaskIdsAux : List String → List String
  | [] => []
  | l :: ls =>
    (match tryTaskHeaderColon l.data with
     | some (tid, _) => if ls.any boundaryLine then [(⟨tid⟩ : String)] else []
     | none => []) ++ verTaskIdsAux ls

/-- The task list of `_validate_verification` (line 311). -/
def verTaskIds (content : String) : List String := verTaskIdsAux (pySplit content '\n')

/-- The per-task violation of `_validate_verification` (lines 314-323). -/
def mkUnverifiableViolation (file_path task_id : String) : Violation :=
  { principle := "Verification"
    severity := "error"
    location := file_path ++ ":" ++ task_id
    description := "Task missing verification command"
    suggestion := "Add 'Verify Pass:' or 'Verify Failure:' command to task" }

/-- The task loop of `_validate_verification` (lines 314-323): each task
"text" is only the bare id (see `verTaskIds`), so `"Verify" not in task`
always holds, and `re.match(r'^(RED-\d+|GREEN-\d+):', task)` — which
requires the colon the id does not carry — returns `None`, making
`.group(1)` raise `AttributeError` on the first task. -/
def verLoopAux (file_path : String) : List String → Except PyErr (List Violation)
  | [] => pure []
  | tid :: rest =>
    if pyIn "Verify" tid then verLoopAux file_path rest
    else
      match tryTaskHeaderColon tid.data with
      | some m => do
        let vs ← verLoopAux file_path rest
        pure (mkUnverifiableViolation file_path ⟨m.1⟩ :: vs)
      | none => throw .attrError

/-- The lazy capture to the closing backtick of `Verify.*?:\x60(.*?)\x60`:
first backtick, failing at a newline (no DOTALL on this pattern). -/
def verCloseScan : List Char → Option (List Char × List Char)
  | [] => none
  | '`' :: cs => some ([], cs)
  | '\n' :: _ => none
  | c :: cs =>
    match verCloseScan cs with
    | some (cap, rest) => some (c :: cap, rest)
    | none => none

/-- The lazy gap `.*?:` followed by a backtick in
`re.findall(r'Verify.*?:\x60(.*?)\x60', content)` (line 326): the first
colon-backtick pair on the line whose command has a closing backtick;
failing at a newline. -/
def tryVerCmdGap : Nat → List Char → Option (List Char × List Char)
  | 0, _ => none
  | _ + 1, [] => none
  | fuel + 1, c :: cs =>
    if c = '\n' then none
    else if c = ':' then
      match cs with
      | '`' :: cs2 =>
        (match verCloseScan cs2 with
         | some r => some r
         | none => tryVerCmdGap fuel cs)
      | _ => tryVerCmdGap fuel cs
    else tryVerCmdGap fuel cs

/-- Fuelled scan for all matches of `Verify.*?:\x60(.*?)\x60`. -/
def verifyCommandsAux : Nat → List Char → List (List Char)
  | 0, _ => []
  | _ + 1, [] => []
  | fuel + 1, c :: cs =>
    if ("Verify").data.isPrefixOf (c :: cs) then
      match tryVerCmdGap (cs.length + 1) ((c :: cs).drop 6) with
      | some (cap, rest) => cap :: verifyCommandsAux fuel rest
      | none => verifyCommandsAux fuel cs
    else verifyCommandsAux fuel cs

/-- The verification-command list of `_validate_verification` (line 326). -/
def verifyCommands (content : String) : List String :=
  (verifyCommandsAux content.data.length content.data).map (fun l => (⟨l⟩ : String))

/-- The command warnings of `_validate_verification` (lines 326-335). -/
def cmdWarnings (content file_path : String) : List Violation :=
  (verifyCommands content).filterMap (fun command =>
    if !(pyIn "pytest" command || pyIn "npm test" command || pyIn "python" command) then
      some { principle := "Verification"
             severity := "warning"
             location := file_path
             description := "Verification command may not be executable: '" ++ command ++ "'"
             suggestion := "Use standard test runners (pytest, npm test) for verification" }
    else none)

/-- `ConstitutionalValidator._validate_verification` (lines 307-335). -/
def validateVerification (content file_path : String) : Except PyErr (List Violation) := do
  let vs ← verLoopAux file_path (verTaskIds content)
  pure (vs ++ cmdWarnings content file_path)

/-- `ConstitutionalValidator.validate_file` (lines 40-55): the eight checks
in source order, accumulating violations; an exception raised by the
verification check propagates out and no violation list is returned. -/
def validateFile (content file_path : String) : Except PyErr (List Violation) := do
  let v8 ← validateVerification content file_path
  pure (validateContextEfficiency content file_path ++
    validateMinimalism content file_path ++
    validateReasonableDefaults content file_path ++
    validateAgentCentric content file_path ++
    validateFocus content file_path ++
    validateBoundaries content file_path ++
    validateDrift content file_path ++
    v8)

end ConstValidator

/-!
General lemmas shared by the claim theorems.
-/

/-- Splitting a failed substring test at a cons cell. -/
theorem containsL_cons_eq_false {pat : List Char} {c : Char} {cs : List Char}
    (h : containsL pat (c :: cs) = false) :
    pat.isPrefixOf (c :: cs) = false ∧ containsL pat cs = false := by
  unfold containsL at h
  simpa using h

/-- The replacement scanner is the identity when the pattern does not occur,
whatever the fuel. -/
theorem pyReplaceAux_of_not_contains :
    ∀ (fuel : Nat) (s pat rep : List Char), containsL pat s = false →
      pyReplaceAux fuel s pat rep = s := by
  intro fuel
  induction fuel with
  | zero => intro s pat rep _; rfl
  | succ n ih =>
    intro s pat rep h
    cases s with
    | nil => rfl
    | cons c cs =>
      obtain ⟨h1, h2⟩ := containsL_cons_eq_false h
      unfold pyReplaceAux
      simp [h1, ih cs pat rep h2]

/-- Python `s.replace(pat, rep)` is the identity when `pat` is non-empty and
does not occur in `s`. -/
theorem pyReplace_eq_self (s pat rep : String) (hne : pat.data.isEmpty = false)
    (h : pyIn pat s = false) : pyReplace s pat rep = s := by
  obtain ⟨d⟩ := s
  unfold pyReplace
  simp only [hne, Bool.false_eq_true, if_false]
  rw [pyReplaceAux_of_not_contains _ _ _ _ h]

/-- The green task at position `i` is derived from the red task at position
`i`, with the id counter at `c + i`. -/
theorem createGreenTasksAux_getElem? :
    ∀ (reds : List RedToGreen.RedTask) (c i : Nat),
      (RedToGreen.createGreenTasksAux c reds)[i]? =
        reds[i]?.map (fun r => RedToGreen.mkGreenTask (c + i) r) := by
  intro reds
  induction reds with
  | nil => intro c i; simp [RedToGreen.createGreenTasksAux]
  | cons r rs ih =>
    intro c i
    cases i with
    | zero => simp [RedToGreen.createGreenTasksAux]
    | succ j =>
      have harith : c + 1 + j = c + (j + 1) := by omega
      simp only [RedToGreen.createGreenTasksAux, List.getElem?_cons_succ, ih (c + 1) j, harith]

/-- `create_green_tasks` emits one green task per red task. -/
theorem createGreenTasksAux_length :
    ∀ (reds : List RedToGreen.RedTask) (c : Nat),
      (RedToGreen.createGreenTasksAux c reds).length = reds.length := by
  intro reds
  induction reds with
  | nil => intro c; rfl
  | cons r rs ih => intro c; simp [RedToGreen.createGreenTasksAux, ih]

/-- Every per-occurrence custom-implementation violation carries the fixed
architecture-boundaries suggestion. -/
theorem indicatorViolations_suggestion (content file_path : String) :
    ∀ v ∈ ConstValidator.indicatorViolations content file_path,
      v.suggestion = "Use existing components from architecture boundaries instead" := by
  intro v hv
  simp only [ConstValidator.indicatorViolations, List.mem_flatMap] at hv
  obtain ⟨ind, _, hmem⟩ := hv
  split at hmem
  · simp only [List.mem_map] at hmem
    obtain ⟨p, _, rfl⟩ := hmem
    rfl
  · simp at hmem

/-- Every over-engineering violation is a warning. -/
theorem complexPatternViolations_severity (content file_path : String) :
    ∀ v ∈ ConstValidator.complexPatternViolations content file_path,
      v.severity = "warning" := by
  intro v hv
  simp only [ConstValidator.complexPatternViolations, List.mem_filterMap] at hv
  obtain ⟨pat, _, hmem⟩ := hv
  split at hmem
  · simp only [Option.some.injEq] at hmem
    rw [← hmem]
  · simp at hmem

/-- The minimalism check contains the excessive-task-count violation exactly
when the top-level task count exceeds 25. -/
theorem excessive_violation_mem_iff (content file_path : String) :
    ConstValidator.excessiveTaskViolation file_path (ConstValidator.taskCount content) ∈
      ConstValidator.validateMinimalism content file_path ↔
    ConstValidator.taskCount content > 25 := by
  unfold ConstValidator.validateMinimalism
  constructor
  · intro h
    rcases List.mem_append.mp h with h12 | hcpx
    · rcases List.mem_append.mp h12 with hex | hind
      · by_cases hc : ConstValidator.taskCount content > 25
        · exact hc
        · rw [if_neg hc] at hex
          simp at hex
      · exfalso
        have hsg := indicatorViolations_suggestion content file_path _ hind
        have hx : (ConstValidator.excessiveTaskViolation file_path
            (ConstValidator.taskCount content)).suggestion =
            "Break down into smaller phases or eliminate non-essential tasks" := rfl
        rw [hx] at hsg
        exact absurd hsg (by decide)
    · exfalso
      have hsv := complexPatternViolations_severity content file_path _ hcpx
      have hx : (ConstValidator.excessiveTaskViolation file_path
          (ConstValidator.taskCount content)).severity = "error" := rfl
      rw [hx] at hsv
      exact absurd hsv (by decide)
  · intro h
    refine List.mem_append.mpr (Or.inl (List.mem_append.mpr (Or.inl ?_)))
    rw [if_pos h]
    exact List.mem_singleton_self _

/-- Mapped extraction of the setup tasks as a document filter. -/
theorem setupTasksOf_map_eq (f : TaskParsing.RedSetupTask → String) :
    ∀ doc : List TaskParsing.TaskRecord,
      (TaskParsing.setupTasksOf doc).map f =
        doc.filterMap (fun r =>
          match r with
          | .setup t => some (f t)
          | _ => none) := by
  intro doc
  induction doc with
  | nil => rfl
  | cons r rs ih => cases r <;> simp [TaskParsing.setupTasksOf, ih]

/-- Mapped extraction of the RED test tasks as a document filter. -/
theorem testTasksOf_map_eq (f : TaskParsing.RedTestTask → String) :
    ∀ doc : List TaskParsing.TaskRecord,
      (TaskParsing.testTasksOf doc).map f =
        doc.filterMap (fun r =>
          match r with
          | .test t => some (f t)
          | _ => none) := by
  intro doc
  induction doc with
  | nil => rfl
  | cons r rs ih => cases r <;> simp [TaskParsing.testTasksOf, ih]

/-- Mapped extraction of the implementation tasks as a document filter. -/
theorem implTasksOf_map_eq (f : TaskParsing.GreenImplementationTask → String) :
    ∀ doc : List TaskParsing.TaskRecord,
      (TaskParsing.implTasksOf doc).map f =
        doc.filterMap (fun r =>
          match r with
          | .impl t => some (f t)
          | _ => none) := by
  intro doc
  induction doc with
  | nil => rfl
  | cons r rs ih => cases r <;> simp [TaskParsing.implTasksOf, ih]

/-- Mapped extraction of the config tasks as a document filter. -/
theorem configTasksOf_map_eq (f : TaskParsing.GreenConfigTask → String) :
    ∀ doc : List TaskParsing.TaskRecord,
      (TaskParsing.configTasksOf doc).map f =
        doc.filterMap (fun r =>
          match r with
          | .config t => some (f t)
          | _ => none) := by
  intro doc
  induction doc with
  | nil => rfl
  | cons r rs ih => cases r <;> simp [TaskParsing.configTasksOf, ih]

/-- Mapped extraction of the integration tasks as a document filter. -/
theorem integTasksOf_map_eq (f : TaskParsing.GreenIntegrationTask → String) :
    ∀ doc : List TaskParsing.TaskRecord,
      (TaskParsing.integTasksOf doc).map f =
        doc.filterMap (fun r =>
          match r with
          | .integ t => some (f t)
          | _ => none) := by
  intro doc
  induction doc with
  | nil => rfl
  | cons r rs ih => cases r <;> simp [TaskParsing.integTasksOf, ih]

/-- Mapped extraction of the skip tasks as a document filter. -/
theorem skipTasksOf_map_eq (f : TaskParsing.GreenSkipTask → String) :
    ∀ doc : List TaskParsing.TaskRecord,
      (TaskParsing.skipTasksOf doc).map f =
        doc.filterMap (fun r =>
          match r with
          | .skip t => some (f t)
          | _ => none) := by
  intro doc
  induction doc with
  | nil => rfl
  | cons r rs ih => cases r <;> simp [TaskParsing.skipTasksOf, ih]

/-- Mapped extraction of the review tasks as a document filter. -/
theorem reviewTasksOf_map_eq (f : TaskParsing.GreenReviewTask → String) :
    ∀ doc : List TaskParsing.TaskRecord,
      (TaskParsing.reviewTasksOf doc).map f =
        doc.filterMap (fun r =>
          match r with
          | .review t => some (f t)
          | _ => none) := by
  intro doc
  induction doc with
  | nil => rfl
  | cons r rs ih => cases r <;> simp [TaskParsing.reviewTasksOf, ih]

/-!
Concrete inputs used by the claim theorems and witnesses.
-/

/-- A well-formed stage-1 test-case record, as `spec_to_requirements.py`
serializes one: the bracket field carries `REQ-001→OUT-1`. -/
def tcmWellFormed : ReqToRed.TCMatch :=
  { g0 := "TEST-001"
    g1 := "REQ-001→OUT-1"
    g2 := "Backend Integration"
    g3 := "Model.objects.create(name=\x22Test\x22)"
    g4 := "Returns ID when created"
    g5 := "pytest tests/integration/test_feature.py::test_1" }

/-- The red-phase document the stage-2 transformer produces from the single
well-formed test case. -/
def redDocWellFormed : String := (ReqToRed.transform [tcmWellFormed]).toOption.getD ""

/-- A document with two top-level tasks and no verification marker. -/
def docTwoTasksNoVerify : String := "RED-1: task one\nRED-2: task two\n"

/-- A document with two top-level tasks, each carrying a `Verify Pass`
marker. -/
def docTwoTasksWithVerify : String :=
  "RED-1: a\n- Verify Pass: `pytest tests/x.py`\nRED-2: b\n- Verify Pass: `pytest tests/y.py`\n"

/-- A document of `n` one-line top-level tasks, newline-terminated. -/
def tasksDoc (n : Nat) : String :=
  String.intercalate "\n" (((List.range n).map (fun i => "RED-" ++ natStr (i + 1) ++ ": t")) ++ [""])

/-- The outcome of spec example scenario 1: one success criterion
`user should be able to log in`. -/
def outcomeLogIn : SpecToReq.UserOutcome :=
  { id := "OUT-1"
    description := "User login"
    success_criteria := ["user should be able to log in"]
    constraints := [] }

/-- Whether a setup task is the mock-setup task, identified by its fixed
description. -/
def isMockSetupTask (t : ReqToRed.RedSetupTask) : Bool :=
  t.description == "Setup API contract mocks"

/-- A Backend (non-Contract) test case. -/
def tcBackendIntegration : ReqToRed.TestCase :=
  { id := "TEST-001"
    requirement_id := "REQ-001"
    outcome_id := "OUT-1"
    test_type := "Backend Integration"
    input_data := "Model.objects.create(name=\x22Test\x22)"
    expected_output := "Returns ID when created"
    verify_command := "pytest tests/integration/test_feature.py::test_1" }

/-- A Frontend Contract test case. -/
def tcFrontendContract : ReqToRed.TestCase :=
  { id := "TEST-002"
    requirement_id := "REQ-002"
    outcome_id := "OUT-1"
    test_type := "Frontend Contract"
    input_data := "<Component id=\x7b1\x7d />"
    expected_output := "UI element renders with data"
    verify_command := "npm test -- Feature.test.tsx" }

/-- A parsed red task whose verification command carries no
short-traceback flag. -/
def redTaskNoFlag : RedToGreen.RedTask :=
  { id := "RED-001"
    test_id := "TEST-001"
    traceability := "[TEST-001→REQ-001→OUT-1]"
    test_type := "Backend Integration"
    file_location := "tests/integration/test_feature_001.py"
    function_name := "test_scenario_001()"
    expected_failure := "ImportError (Model not implemented)"
    verify_failure := "pytest tests/x.py" }

/-- A parsed red task whose traceability chain holds no `REQ-<digits>`
reference. -/
def redTaskNoReq : RedToGreen.RedTask :=
  { id := "RED-001"
    test_id := "TEST-5"
    traceability := "[TEST-5→OUT-5]"
    test_type := "Backend Integration"
    file_location := "tests/integration/test_feature_5.py"
    function_name := "test_scenario_5()"
    expected_failure := "ImportError (Model not implemented)"
    verify_failure := "pytest tests/integration/test_feature_5.py::test_scenario_5 --tb=short" }

/-!
The claim theorems.
-/

set_option maxRecDepth 20000 in
/-- C1: the Requirements→RedPhase transformer applied to a non-empty,
well-formed test-case set gives every test task a traceability field that is
a single bracketed chain of exactly 3 non-empty identifier segments — but
`validate_traceability` on the generated document is NOT empty: it counts
bracketed groups `[...]` (the chain is one group, fewer than 3) and reports
one `Incomplete traceability chain` violation per generated task, against
the claim, the spec and the code's own comment `Should have TEST → REQ →
OUT`.  This theorem evaluates the pipeline at the failing input. -/
theorem claim1_validate_traceability_flags_generated_chain :
    ReqToRed.transform [tcmWellFormed] = Except.ok redDocWellFormed ∧
    (TaskParsing.parseRedTestTasksText redDocWellFormed).map (fun t => t.traceability) =
      ["[TEST-001→REQ-001→OUT-1]"] ∧
    pySplit "TEST-001→REQ-001→OUT-1" '→' = ["TEST-001", "REQ-001", "OUT-1"] ∧
    (pySplit "TEST-001→REQ-001→OUT-1" '→').all (fun seg => !seg.isEmpty) = true ∧
    TaskParsing.bracketGroupCount "[TEST-001→REQ-001→OUT-1]" = 1 ∧
    TaskParsing.validateTraceabilityText redDocWellFormed =
      ["RED-001: Incomplete traceability chain"] := by
  decide

set_option maxRecDepth 20000 in
/-- C2: the Policy Validator's unverifiable-task check never returns the
claimed `N` violations: `re.findall` with a single capture group yields the
bare task ids, `"Verify" not in task` then holds for every id, and
`re.match(r'^(RED-\d+|GREEN-\d+):', task).group(1)` on a colon-less id
raises `AttributeError`, so `validate_file` crashes on any document with at
least one task — whether or not the tasks carry verification markers. -/
theorem claim2_unverifiable_task_check_crashes :
    ConstValidator.taskCount docTwoTasksNoVerify = 2 ∧
    pyCount docTwoTasksNoVerify "Verify" = 0 ∧
    ConstValidator.validateFile docTwoTasksNoVerify "red-phase.md" =
      Except.error PyErr.attrError ∧
    ConstValidator.taskCount docTwoTasksWithVerify = 2 ∧
    pyCount docTwoTasksWithVerify "Verify" = 2 ∧
    ConstValidator.validateFile docTwoTasksWithVerify "red-phase.md" =
      Except.error PyErr.attrError := by
  decide

set_option maxRecDepth 2000 in
/-- C3 (counterexample): the requirement derived from the success criterion
`user should be able to log in` does not have the constraint text
`User be able to log in` — `re.sub` removes only the modal word, leaving
both surrounding spaces in place. -/
theorem claim3_constraint_counterexample :
    ¬ ((SpecToReq.deriveRequirements [outcomeLogIn]).map (fun r => r.constraint) =
        ["User be able to log in"]) := by
  decide

set_option maxRecDepth 2000 in
/-- C3 (amended): the transformer produces `REQ-001` with constraint exactly
`User  be able to log in` (two spaces where `should` was excised), the
default backend component (no keyword-table entry matches), and acceptance
`Operation completes successfully`. -/
theorem claim3_requirement_derivation_amended :
    SpecToReq.deriveRequirements [outcomeLogIn] =
      [{ id := "REQ-001"
         outcome_id := "OUT-1"
         constraint := "User  be able to log in"
         component := "Django @api_view decorator"
         acceptance := "Operation completes successfully" }] := by
  decide

set_option maxRecDepth 40000 in
/-- C4: the minimalism check emits its error-severity excessive-task-count
violation exactly when the top-level task count exceeds 25 (so 26 tasks
trigger it and 24 do not) — but the `validate` operation itself never
returns that violation list for such documents: it crashes with
`AttributeError` in the verification check (see C2) before returning. -/
theorem claim4_excessive_task_count_check :
    (∀ content file_path : String,
        ConstValidator.excessiveTaskViolation file_path (ConstValidator.taskCount content) ∈
          ConstValidator.validateMinimalism content file_path ↔
        ConstValidator.taskCount content > 25) ∧
    ConstValidator.taskCount (tasksDoc 26) = 26 ∧
    ConstValidator.validateMinimalism (tasksDoc 26) "green-phase.md" =
      [ConstValidator.excessiveTaskViolation "green-phase.md" 26] ∧
    ConstValidator.taskCount (tasksDoc 24) = 24 ∧
    ConstValidator.validateMinimalism (tasksDoc 24) "green-phase.md" = [] ∧
    ConstValidator.validateFile (tasksDoc 26) "green-phase.md" =
      Except.error PyErr.attrError := by
  refine ⟨excessive_violation_mem_iff, ?_⟩
  decide

/-- C5: setup-task derivation produces a mock-setup task exactly when some
test case's type contains `Contract` (none → no mock task, some → exactly
one), and the set {Backend Integration, Frontend Contract} yields exactly
the database-setup, mock-setup and frontend-environment-setup tasks, in
that order, with ids 001, 002, 003. -/
theorem claim5_setup_task_derivation :
    (∀ tcs : List ReqToRed.TestCase,
        (∀ tc ∈ tcs, pyIn "Contract" tc.test_type = false) →
        (ReqToRed.createSetupTasks tcs).filter isMockSetupTask = []) ∧
    (∀ tcs : List ReqToRed.TestCase,
        (∃ tc ∈ tcs, pyIn "Contract" tc.test_type = true) →
        ((ReqToRed.createSetupTasks tcs).filter isMockSetupTask).length = 1) ∧
    ReqToRed.createSetupTasks [tcBackendIntegration, tcFrontendContract] =
      [ReqToRed.dbSetupTask "001", ReqToRed.mockSetupTask "002",
       ReqToRed.frontendSetupTask "003"] := by
  refine ⟨?_, ?_, by decide⟩
  · intro tcs h
    have hm : tcs.any (fun tc => pyIn "Contract" tc.test_type) = false := by
      rw [List.any_eq_false]
      intro tc htc
      simp [h tc htc]
    cases hdb : tcs.any (fun tc => pyIn "Backend" tc.test_type) <;>
      cases hfe : tcs.any (fun tc => pyIn "Frontend" tc.test_type) <;>
      simp [ReqToRed.createSetupTasks, hm, hdb, hfe] <;> decide
  · intro tcs h
    have hm : tcs.any (fun tc => pyIn "Contract" tc.test_type) = true := by
      rw [List.any_eq_true]
      obtain ⟨tc, htc, hc⟩ := h
      exact ⟨tc, htc, by simp [hc]⟩
    cases hdb : tcs.any (fun tc => pyIn "Backend" tc.test_type) <;>
      cases hfe : tcs.any (fun tc => pyIn "Frontend" tc.test_type) <;>
      simp [ReqToRed.createSetupTasks, hm, hdb, hfe] <;> decide

/-- Witness for C5 at concrete inputs: a one-element Backend set yields no
mock-setup task; a one-element Frontend Contract set yields exactly one. -/
theorem claim5_setup_task_derivation_witness :
    (ReqToRed.createSetupTasks [tcBackendIntegration]).filter isMockSetupTask = [] ∧
    ((ReqToRed.createSetupTasks [tcFrontendContract]).filter isMockSetupTask).length = 1 := by
  refine ⟨claim5_setup_task_derivation.1 [tcBackendIntegration] ?_,
    claim5_setup_task_derivation.2.1 [tcFrontendContract] ?_⟩
  · intro tc htc
    rw [List.mem_singleton] at htc
    subst htc
    decide
  · exact ⟨tcFrontendContract, List.mem_singleton_self _, by decide⟩

/-- C6: the task execution order is the fixed grouping — all RED-SETUP ids,
then RED test ids, then GREEN implementation ids, then GREEN-CONFIG ids,
then GREEN-INT ids, then GREEN-SKIP ids, then GREEN-REVIEW ids — each group
listing its records in the order they appear in the document. -/
theorem claim6_execution_order_grouping :
    ∀ doc : List TaskParsing.TaskRecord,
      TaskParsing.getTaskExecutionOrder doc =
        doc.filterMap (fun r =>
          match r with
          | .setup t => some ("RED-SETUP-" ++ t.id)
          | _ => none) ++
        doc.filterMap (fun r =>
          match r with
          | .test t => some ("RED-" ++ t.id)
          | _ => none) ++
        doc.filterMap (fun r =>
          match r with
          | .impl t => some ("GREEN-" ++ t.id)
          | _ => none) ++
        doc.filterMap (fun r =>
          match r with
          | .config t => some ("GREEN-CONFIG-" ++ t.id)
          | _ => none) ++
        doc.filterMap (fun r =>
          match r with
          | .integ t => some ("GREEN-INT-" ++ t.id)
          | _ => none) ++
        doc.filterMap (fun r =>
          match r with
          | .skip t => some ("GREEN-SKIP-" ++ t.id)
          | _ => none) ++
        doc.filterMap (fun r =>
          match r with
          | .review t => some ("GREEN-REVIEW-" ++ t.id)
          | _ => none) := by
  intro doc
  rw [TaskParsing.getTaskExecutionOrder, setupTasksOf_map_eq, testTasksOf_map_eq,
    implTasksOf_map_eq, configTasksOf_map_eq, integTasksOf_map_eq, skipTasksOf_map_eq,
    reviewTasksOf_map_eq]

/-- C7: each emitted GREEN task's passing verification command equals the
consumed red task's failing command with `--tb=short` removed and the
result stripped; when the red command (already stripped by the parser)
contains no such flag, the two commands are identical. -/
theorem claim7_green_verify_command :
    ∀ (reds : List RedToGreen.RedTask) (i : Nat) (red : RedToGreen.RedTask),
      reds[i]? = some red →
      ∃ g : RedToGreen.GreenTask,
        (RedToGreen.createGreenTasks reds)[i]? = some g ∧
        g.verify_pass = pyStrip (pyReplace red.verify_failure "--tb=short" "") ∧
        (pyIn "--tb=short" red.verify_failure = false →
          pyStrip red.verify_failure = red.verify_failure →
          g.verify_pass = red.verify_failure) := by
  intro reds i red h
  refine ⟨RedToGreen.mkGreenTask (1 + i) red, ?_, rfl, ?_⟩
  · rw [RedToGreen.createGreenTasks, createGreenTasksAux_getElem?, h]; rfl
  · intro hno hst
    show pyStrip (pyReplace red.verify_failure "--tb=short" "") = red.verify_failure
    rw [pyReplace_eq_self _ _ _ (by decide) hno, hst]

/-- Witness for C7 at a concrete red task whose command carries no
`--tb=short`: the green command is byte-identical. -/
theorem claim7_green_verify_command_witness :
    ∃ g : RedToGreen.GreenTask,
      (RedToGreen.createGreenTasks [redTaskNoFlag])[0]? = some g ∧
      g.verify_pass = "pytest tests/x.py" := by
  obtain ⟨g, h1, _, h3⟩ := claim7_green_verify_command [redTaskNoFlag] 0 redTaskNoFlag rfl
  exact ⟨g, h1, h3 (by decide) (by decide)⟩

/-- C8: each stage transformer is a pure function of its parsed input in
this embedding — the Python sources draw on no randomness and no clock —
so two runs on identical input produce byte-identical output text. -/
theorem claim8_transformer_determinism :
    (∀ a b : List SpecToReq.UserOutcome, a = b →
      SpecToReq.transform a = SpecToReq.transform b) ∧
    (∀ a b : List ReqToRed.TCMatch, a = b →
      ReqToRed.transform a = ReqToRed.transform b) ∧
    (∀ a b : List RedToGreen.RedMatch, a = b →
      RedToGreen.transform a = RedToGreen.transform b) :=
  ⟨fun _ _ h => by rw [h], fun _ _ h => by rw [h], fun _ _ h => by rw [h]⟩

/-- C9: for every success-criterion string, the derived constraint text is
at most 100 characters long (99 on the short branch, exactly 97 + 3 dots on
the truncating branch). -/
theorem claim9_constraint_length_bound :
    ∀ criterion : String, (SpecToReq.simplifyConstraint criterion).length ≤ 100 := by
  intro criterion
  unfold SpecToReq.simplifyConstraint
  set simplified := pyCapitalize
    (pyStrip ⟨SpecToReq.subModalAux criterion.data.length false criterion.data⟩) with hs
  by_cases h : simplified.length < 100
  · simp only [h, if_true]
    omega
  · simp only [h, if_false]
    show (String.mk (simplified.data.take 97 ++ ("...").data)).length ≤ 100
    have h97 : (simplified.data.take 97).length ≤ 97 := by
      rw [List.length_take]
      omega
    simp only [String.length, List.length_append]
    have h3 : (['.', '.', '.'] : List Char).length = 3 := rfl
    omega

/-- C10: a red task whose traceability holds no `REQ-<digits>` reference is
neither dropped nor fatal: the transformer still emits one green task per
red task, and the corresponding green task carries the literal sentinel
`REQ-UNKNOWN`. -/
theorem claim10_missing_requirement_id_sentinel :
    ∀ (reds : List RedToGreen.RedTask) (i : Nat) (red : RedToGreen.RedTask),
      reds[i]? = some red →
      reqSearch red.traceability.data = none →
      (RedToGreen.createGreenTasks reds).length = reds.length ∧
      ∃ g : RedToGreen.GreenTask,
        (RedToGreen.createGreenTasks reds)[i]? = some g ∧
        g.requirement_id = "REQ-UNKNOWN" := by
  intro reds i red h hreq
  refine ⟨createGreenTasksAux_length reds 1,
    RedToGreen.mkGreenTask (1 + i) red, ?_, ?_⟩
  · rw [RedToGreen.createGreenTasks, createGreenTasksAux_getElem?, h]; rfl
  · show RedToGreen.extractRequirementId red.traceability = "REQ-UNKNOWN"
    unfold RedToGreen.extractRequirementId
    rw [hreq]

/-- Witness for C10 at a concrete red task with traceability
`[TEST-5→OUT-5]`. -/
theorem claim10_missing_requirement_id_sentinel_witness :
    (RedToGreen.createGreenTasks [redTaskNoReq]).length = 1 ∧
    ∃ g : RedToGreen.GreenTask,
      (RedToGreen.createGreenTasks [redTaskNoReq])[0]? = some g ∧
      g.requirement_id = "REQ-UNKNOWN" := by
  have h := claim10_missing_requirement_id_sentinel [redTaskNoReq] 0 redTaskNoReq rfl (by decide)
  exact ⟨h.1, h.2⟩
